import Mathlib

/-!
Verification development for the CardMarket portfolio tracker's scraping core
(`src/portfolio_tracker/scraper.py`, `src/portfolio_tracker/tracker.py`).

Numbers extracted from markup are modelled as exact rationals (`ℚ`): every
numeric token handled by the code is a short decimal literal, so the
rational value is the intended reading of the Python `float`.

The two regex patterns of the scraper are embedded as executable matchers
over `List Char`:
  - the seller scan `(\d+,?\d*\.?\d*)\s*€` (re.findall semantics), and
  - the label-anchored single-field patterns
    `LABEL</dt><dd[^>]*>MID([\d,]+\.?\d*)\s*€POST` (re.search semantics)
    together with `Available items</dt><dd[^>]*>(\d+)</dd>`.
For these particular patterns greedy matching never needs to backtrack into
a shorter quantifier run (shrinking any run puts a digit, comma or dot in
front of a sub-pattern that cannot consume it), so the matchers below use
deterministic maximal-munch, which agrees with Python's engine here.
-/

namespace PortfolioTracker

abbrev Chars := List Char

/-- Substring containment, modelling Python's `needle in haystack` on strings. -/
def strContains (s pat : String) : Bool :=
  decide (pat.toList <:+: s.toList)

/-- Consume the literal `lit` from the front of `text`. -/
def dropLit : Chars → Chars → Option Chars
  | [], text => some text
  | _ :: _, [] => none
  | l :: ls, c :: cs => if c = l then dropLit ls cs else none

/-- Consume `[^>]*>`: skip to the first `>` and consume it. -/
def skipTag (text : Chars) : Option Chars :=
  match text.dropWhile (fun c => c ≠ '>') with
  | '>' :: rest => some rest
  | _ => none

/-- Digit-or-comma class `[\d,]` of the label-anchored price patterns. -/
def isDC (c : Char) : Bool := c.isDigit || c = ','

/-- Capture `([\d,]+\.?\d*)` by maximal munch; returns (capture, rest). -/
def priceCap (text : Chars) : Option (Chars × Chars) :=
  let a := text.takeWhile isDC
  if a.isEmpty then none
  else
    match text.drop a.length with
    | '.' :: r2 =>
      let d3 := r2.takeWhile Char.isDigit
      some (a ++ '.' :: d3, r2.drop d3.length)
    | r1 => some (a, r1)

/-- Capture `(\d+)` by maximal munch; returns (capture, rest). -/
def numCap (text : Chars) : Option (Chars × Chars) :=
  let d := text.takeWhile Char.isDigit
  if d.isEmpty then none else some (d, text.drop d.length)

/-- Consume `\s*` followed by the literal `lit`. -/
def dropWsLit (lit text : Chars) : Option Chars :=
  dropLit lit (text.dropWhile Char.isWhitespace)

/-- Try the full single-value price pattern at the current position:
`anchor` + `[^>]*>` + `mid` + capture + `\s*` + `post`. -/
def tryPriceAt (anchor mid post text : Chars) : Option Chars := do
  let r1 ← dropLit anchor text
  let r2 ← skipTag r1
  let r3 ← dropLit mid r2
  let (cap, r4) ← priceCap r3
  let _ ← dropWsLit post r4
  pure cap

/-- Scan modelling `re.search` for the single-value price pattern: try every
start position. -/
def searchPrice (anchor mid post : Chars) : Chars → Option Chars
  | [] => none
  | c :: rest =>
    match tryPriceAt anchor mid post (c :: rest) with
    | some cap => some cap
    | none => searchPrice anchor mid post rest

/-- Try the available-items pattern `anchor` + `[^>]*>` + `(\d+)` + `post` at the
current position. -/
def tryNumAt (anchor post text : Chars) : Option Chars := do
  let r1 ← dropLit anchor text
  let r2 ← skipTag r1
  let (cap, r3) ← numCap r2
  let _ ← dropLit post r3
  pure cap

/-- Scan modelling `re.search` for the available-items pattern. -/
def searchNum (anchor post : Chars) : Chars → Option Chars
  | [] => none
  | c :: rest =>
    match tryNumAt anchor post (c :: rest) with
    | some cap => some cap
    | none => searchNum anchor post rest

/-- Capture `(\d+,?\d*\.?\d*)` of the seller-price scan by maximal munch. -/
def sellerCap (text : Chars) : Option (Chars × Chars) :=
  let d1 := text.takeWhile Char.isDigit
  if d1.isEmpty then none
  else
    let r1 := text.drop d1.length
    let s2 : Chars × Chars :=
      match r1 with
      | ',' :: rr =>
        let d2 := rr.takeWhile Char.isDigit
        (',' :: d2, rr.drop d2.length)
      | _ => ([], r1)
    let s3 : Chars × Chars :=
      match s2.2 with
      | '.' :: rr =>
        let d3 := rr.takeWhile Char.isDigit
        ('.' :: d3, rr.drop d3.length)
      | _ => ([], s2.2)
    some (d1 ++ s2.1 ++ s3.1, s3.2)

/-- One seller-pattern match `(\d+,?\d*\.?\d*)\s*€` at the current position;
returns (capture, rest after the whole match). -/
def sellerMatch (text : Chars) : Option (Chars × Chars) := do
  let (cap, r) ← sellerCap text
  match r.dropWhile Char.isWhitespace with
  | '€' :: r2 => some (cap, r2)
  | _ => none

/-- Loop modelling `re.findall` for the seller pattern: non-overlapping matches, scanning
left to right. `fuel` bounds the recursion; it is initialised to the text
length, which suffices because every step consumes at least one character. -/
def findTokens (fuel : Nat) (text : Chars) : List Chars :=
  match fuel, text with
  | 0, _ => []
  | _, [] => []
  | f + 1, c :: rest =>
    match sellerMatch (c :: rest) with
    | some (cap, r) => cap :: findTokens f r
    | none => findTokens f rest

/-- All seller-pattern captures in the document, in scan order. -/
def findAllSellerTokens (text : Chars) : List Chars :=
  findTokens text.length text

/-- Value of a digit string, most significant first. -/
def natOfDigits (cs : Chars) : ℕ :=
  cs.foldl (fun n c => 10 * n + (c.toNat - '0'.toNat)) 0

/-- Python `float()` restricted to the strings this program feeds it (digits and
periods only, after comma normalisation): `none` models `ValueError`. -/
def pyFloat? (s : Chars) : Option ℚ :=
  if s.isEmpty then none
  else if !(s.all fun c => c.isDigit || c == '.') then none
  else if 2 ≤ (s.filter (fun c => c == '.')).length then none
  else if !(s.any Char.isDigit) then none
  else
    let ip := s.takeWhile (fun c => c ≠ '.')
    let fp := (s.dropWhile (fun c => c ≠ '.')).drop 1
    some ((natOfDigits ip : ℚ) + (natOfDigits fp : ℚ) / ((10 : ℚ) ^ fp.length))

/-- The comma/period normalisation of `_extract_price` and
`_extract_seller_prices`: a comma with no period is the decimal separator, a
comma together with a period is a thousands separator and is stripped. -/
def normComma (s : Chars) : Chars :=
  if ',' ∈ s ∧ '.' ∉ s then
    s.map (fun c => if c = ',' then '.' else c)
  else if ',' ∈ s ∧ '.' ∈ s then
    s.filter (fun c => c ≠ ',')
  else s

/-- Normalise then parse one captured numeric token (`none` = `ValueError`). -/
def parsePriceTok (cs : Chars) : Option ℚ :=
  pyFloat? (normComma cs)

/-- String-level wrapper for the numeric parsing done inside `_extract_price`. -/
def parse_price_str (s : String) : Option ℚ :=
  parsePriceTok s.toList

/-- The `ValueError` message raised by `float()` on an invalid string; Python 3
quotes the offending string. -/
def floatErrMsg (cs : Chars) : String :=
  "could not convert string to float: \x27" ++ String.mk cs ++ "\x27"

/-- Embedding of `_extract_price` (scraper.py lines 580-592): regex search, normalisation,
`float()`. The `Except.error` case models the uncaught `ValueError`. -/
def extract_price (anchor mid post : String) (text : String) : Except String (Option ℚ) :=
  match searchPrice anchor.toList mid.toList post.toList text.toList with
  | none => .ok none
  | some cap =>
    match parsePriceTok cap with
    | some v => .ok (some v)
    | none => .error (floatErrMsg (normComma cap))

/-- Embedding of `_extract_number` (scraper.py lines 573-578); the capture is `\d+`, so
`int()` cannot fail. -/
def extract_number (anchor post : String) (text : String) : Option ℕ :=
  (searchNum anchor.toList post.toList text.toList).map natOfDigits

/-- Embedding of `_extract_seller_prices` (scraper.py lines 594-618): scan all tokens, parse,
silently drop failures, keep the range `10 <= price <= 10000`, deduplicate,
sort ascending, truncate to 50. -/
def extract_seller_prices (text : String) : List ℚ :=
  let prices := (findAllSellerTokens text.toList).filterMap fun t =>
    match parsePriceTok t with
    | none => none
    | some p => if 10 ≤ p ∧ p ≤ 10000 then some p else none
  (List.insertionSort (· ≤ ·) prices.dedup).take 50

/-- The token filter of `_extract_seller_prices`: parse, drop `ValueError`,
keep the `10 <= price <= 10000` range. -/
def keepPrice (t : Chars) : Option ℚ :=
  match parsePriceTok t with
  | none => none
  | some p => if 10 ≤ p ∧ p ≤ 10000 then some p else none

/-- One scrape attempt's structured result (the Python dicts built by
`scrape_item_price` / `_fallback_http_scrape`). The `scraped_at` wall-clock
timestamp is outside the model. `method` is `some "http_fallback"` exactly
when the dict carries the `"method"` key. -/
structure Snapshot where
  available_items : Option ℕ
  from_price : Option ℚ
  price_trend : Option ℚ
  avg_30_days : Option ℚ
  avg_7_days : Option ℚ
  avg_1_day : Option ℚ
  seller_prices : List ℚ
  min_seller_price : Option ℚ
  max_seller_price : Option ℚ
  seller_count : ℕ
  method : Option String
deriving Repr, DecidableEq

/-- Result dict shape: status success with a snapshot, or status error with a
message. -/
inductive ScrapeResult where
  | success (snap : Snapshot)
  | error (msg : String)
deriving Repr, DecidableEq

/-- Python `min(seller_prices) if seller_prices else None`. -/
def listMin : List ℚ → Option ℚ
  | [] => none
  | x :: xs => some (xs.foldl min x)

/-- Python `max(seller_prices) if seller_prices else None`. -/
def listMax : List ℚ → Option ℚ
  | [] => none
  | x :: xs => some (xs.foldl max x)

/-- The Available-items field, scraper.py line 446 / 525. -/
def extract_available_items (content : String) : Option ℕ :=
  extract_number "Available items</dt><dd" "</dd>" content

/-- The From price field, scraper.py line 447 / 526. -/
def extract_from_price (content : String) : Except String (Option ℚ) :=
  extract_price "From</dt><dd" "" "€</dd>" content

/-- The Price-Trend field, scraper.py line 448. -/
def extract_price_trend (content : String) : Except String (Option ℚ) :=
  extract_price "Price Trend</dt><dd" "<span>" "€</span></dd>" content

/-- The 30-days-average-price field, scraper.py line 449. -/
def extract_avg_30 (content : String) : Except String (Option ℚ) :=
  extract_price "30-days average price</dt><dd" "<span>" "€</span></dd>" content

/-- The 7-days-average-price field, scraper.py line 450. -/
def extract_avg_7 (content : String) : Except String (Option ℚ) :=
  extract_price "7-days average price</dt><dd" "<span>" "€</span></dd>" content

/-- The 1-day-average-price field, scraper.py line 451. -/
def extract_avg_1 (content : String) : Except String (Option ℚ) :=
  extract_price "1-day average price</dt><dd" "<span>" "€</span></dd>" content

/-- The full-render extraction stage, scraper.py lines 446-469, in the source's
evaluation order; an uncaught `ValueError` from any `_extract_price` call
aborts the stage (`Except.error`). -/
def extract_all (content : String) : Except String Snapshot :=
  match extract_from_price content with
  | .error e => .error e
  | .ok fp =>
  match extract_price_trend content with
  | .error e => .error e
  | .ok pt =>
  match extract_avg_30 content with
  | .error e => .error e
  | .ok a30 =>
  match extract_avg_7 content with
  | .error e => .error e
  | .ok a7 =>
  match extract_avg_1 content with
  | .error e => .error e
  | .ok a1 =>
    let sellers := extract_seller_prices content
    .ok {
      available_items := extract_available_items content
      from_price := fp
      price_trend := pt
      avg_30_days := a30
      avg_7_days := a7
      avg_1_day := a1
      seller_prices := sellers
      min_seller_price := listMin sellers
      max_seller_price := listMax sellers
      seller_count := sellers.length
      method := none }

/-- Challenge-indicator phrases, scraper.py lines 407-410. -/
def challenge_indicators : List String :=
  ["checking your browser", "cloudflare", "ddos protection",
   "security check", "please wait", "ray id", "challenge"]

/-- Test `any(indicator in page_content.lower() for indicator in ...)`. -/
def challengeDetected (content : String) : Bool :=
  challenge_indicators.any fun ind => strContains (content.map Char.toLower) ind

/-- Environment oracle for one browser-path attempt: the outcome of each
external playwright call. An `Except.error` models the call raising; the
unmodelled waits are folded into the raise of the adjacent navigation call.
`closeExc` is the outcome of the unguarded explicit `browser.close()` at
line 471 (reached only after a successful extraction); the guarded close in
`finally` swallows its own errors and needs no oracle. -/
structure ScrapeEnv where
  launchExc : Option String
  homeExc : Option String
  gameExc : Option String
  targetResp : Except String ℕ
  cfMitigated : Bool
  challengeContent : String
  reloadResp : Except String ℕ
  postExc : Option String
  content : String
  closeExc : Option String

/-- Expression `"Magic" if "/Magic/" in item_url else "Pokemon"`, scraper.py
line 368. -/
def gameType (url : String) : String :=
  if strContains url "/Magic/" then "Magic" else "Pokemon"

/-- Value of `self.base_url`, scraper.py line 20. -/
def base_url : String := "https://www.cardmarket.com"

/-- The category page visited in step 2, scraper.py line 382. -/
def category_url (url : String) : String :=
  base_url ++ "/en/" ++ gameType url

/-- The product-page status after the Cloudflare-challenge block (scraper.py
lines 396-420): on a 403 or a mitigation header, if the markup shows
challenge indicators the page is reloaded once (`response` is rebound only
when the reload returns; an exception inside the block is merely logged). -/
def finalStatus (st : ℕ) (cf : Bool) (challengeContent : String)
    (reloadResp : Except String ℕ) : ℕ :=
  if st = 403 || cf then
    if challengeDetected challengeContent then
      match reloadResp with
      | .ok st2 => st2
      | .error _ => st
    else st
  else st

/-- Embedding of `scrape_item_price` (scraper.py lines 69-496) over the environment oracle.
Returns the attempt result together with the number of `browser.close()`
invocations performed on a launched browser: the explicit close after a
successful extraction (line 471) plus the guarded close in `finally`
(line 493), which runs on every exit and swallows its own errors; when the
launch itself raised, `browser` is unbound and the guarded close is a
no-op. If the unguarded explicit close raises (`closeExc`), the handler at
line 475 turns the attempt into a status-error dict after both close
invocations. -/
def scrape_item_price (env : ScrapeEnv) (_url : String) : ScrapeResult × ℕ :=
  match env.launchExc with
  | some e => (.error e, 0)
  | none =>
  match env.homeExc with
  | some e => (.error e, 1)
  | none =>
  match env.gameExc with
  | some e => (.error e, 1)
  | none =>
  match env.targetResp with
  | .error e => (.error e, 1)
  | .ok st =>
    if finalStatus st env.cfMitigated env.challengeContent env.reloadResp ≠ 200 then
      (.error ("HTTP " ++
        toString (finalStatus st env.cfMitigated env.challengeContent env.reloadResp)), 1)
    else
      match env.postExc with
      | some e => (.error e, 1)
      | none =>
        match extract_all env.content with
        | .ok snap =>
          match env.closeExc with
          | some e => (.error e, 2)
          | none => (.success snap, 2)
        | .error e => (.error e, 1)

/-- Whether an attempt in environment `env` reaches a successful extraction and
hence the explicit close at line 471: true exactly when the launch and both
preliminary navigations succeed, the product page ends at status 200 after
the challenge block, the post-navigation waits do not raise, and the
extraction stage raises no `ValueError`. -/
def reachedOk (env : ScrapeEnv) : Bool :=
  env.launchExc.isNone && env.homeExc.isNone && env.gameExc.isNone &&
  (match env.targetResp with
   | .error _ => false
   | .ok st =>
     decide (finalStatus st env.cfMitigated env.challengeContent env.reloadResp = 200)) &&
  env.postExc.isNone &&
  (match extract_all env.content with
   | .ok _ => true
   | .error _ => false)

/-- Embedding of `_fallback_http_scrape` (scraper.py lines 498-551) as a function of the
direct request's status and body; the `Except.error` branch of the reduced
extraction is the uncaught `ValueError` reaching the outer handler. -/
def fallback_http_scrape (status : ℕ) (content : String) : ScrapeResult :=
  if status = 403 then .error "HTTP 403"
  else if status ≠ 200 then .error ("HTTP " ++ toString status)
  else
    match extract_from_price content with
    | .error e => .error ("Fallback failed: " ++ e)
    | .ok fp =>
      if (extract_available_items content).isSome || fp.isSome then
        .success {
          available_items := extract_available_items content
          from_price := fp
          price_trend := none
          avg_30_days := none
          avg_7_days := none
          avg_1_day := none
          seller_prices := []
          min_seller_price := none
          max_seller_price := none
          seller_count := 0
          method := some "http_fallback" }
      else .error "No data extracted"

/-- Embedding of `scrape_with_fallback` (scraper.py lines 553-571) as a function of the two
path results; the boolean records whether the fallback path was attempted. -/
def scrape_with_fallback (browserRes fallbackRes : ScrapeResult) : ScrapeResult × Bool :=
  match browserRes with
  | .success s => (.success s, false)
  | .error msg =>
    if strContains msg "403" then
      match fallbackRes with
      | .error fmsg => (.error ("Browser: " ++ msg ++ ", Fallback: " ++ fmsg), true)
      | .success s => (.success s, true)
    else (.error msg, false)

/-- One holding row from CSV storage (`id`, `name`, `link`). -/
structure Holding where
  id : ℕ
  name : String
  link : String

/-- What the per-item loop body records for one holding. -/
inductive ItemOutcome where
  | recorded (r : ScrapeResult)
  | errorLogged (e : String)
deriving Repr, DecidableEq

/-- One iteration of the loop in `track_all_items` (tracker.py lines 84-94):
scrape, then persist; any exception is caught by the per-item handler and
logged. `scrapeF` and `saveF` are oracles for the two external calls. -/
def trackItem (scrapeF : Holding → Except String ScrapeResult)
    (saveF : Holding → ScrapeResult → Except String Unit) (h : Holding) : ItemOutcome :=
  match scrapeF h with
  | .error e => .errorLogged e
  | .ok r =>
    match saveF h r with
    | .error e => .errorLogged e
    | .ok _ => .recorded r

/-- The `for item in stored_items` loop of `track_all_items`. -/
def trackAllItems (scrapeF : Holding → Except String ScrapeResult)
    (saveF : Holding → ScrapeResult → Except String Unit)
    (items : List Holding) : List ItemOutcome :=
  items.map (trackItem scrapeF saveF)

/-- A browser-path environment that reaches extraction with empty markup. -/
def envSuccEmpty : ScrapeEnv where
  launchExc := none
  homeExc := none
  gameExc := none
  targetResp := .ok 200
  cfMitigated := false
  challengeContent := ""
  reloadResp := .ok 200
  postExc := none
  content := ""
  closeExc := none

/-- Like `envSuccEmpty`, but the unguarded explicit close at line 471 raises. -/
def envCloseRaise : ScrapeEnv :=
  { envSuccEmpty with closeExc := some "close failed" }

/-- The snapshot extracted from empty markup. -/
def snapEmpty : Snapshot where
  available_items := none
  from_price := none
  price_trend := none
  avg_30_days := none
  avg_7_days := none
  avg_1_day := none
  seller_prices := []
  min_seller_price := none
  max_seller_price := none
  seller_count := 0
  method := none

/-- Markup on which the available-items field parses but the `From` token
raises `ValueError` inside `_extract_price`. -/
def fallbackBugMarkup : String :=
  "Available items</dt><dd>5</dd>From</dt><dd>1,2,3 €</dd>"

/-- The snapshot the fallback builds when only the available-item count (5)
parses. -/
def fbSnapAvail5 : Snapshot where
  available_items := some 5
  from_price := none
  price_trend := none
  avg_30_days := none
  avg_7_days := none
  avg_1_day := none
  seller_prices := []
  min_seller_price := none
  max_seller_price := none
  seller_count := 0
  method := some "http_fallback"

/-- The invariants claimed for every successfully constructed snapshot. -/
def snapInv (s : Snapshot) : Prop :=
  s.seller_count = s.seller_prices.length ∧
  (s.seller_prices ≠ [] →
    ∃ a b, s.min_seller_price = some a ∧ s.max_seller_price = some b ∧ a ≤ b) ∧
  (s.seller_count = 0 → s.min_seller_price = none ∧ s.max_seller_price = none) ∧
  (∀ v, s.from_price = some v → 0 ≤ v) ∧
  (∀ v, s.price_trend = some v → 0 ≤ v) ∧
  (∀ v, s.avg_30_days = some v → 0 ≤ v) ∧
  (∀ v, s.avg_7_days = some v → 0 ≤ v) ∧
  (∀ v, s.avg_1_day = some v → 0 ≤ v) ∧
  (∀ v, s.min_seller_price = some v → 0 ≤ v) ∧
  (∀ v, s.max_seller_price = some v → 0 ≤ v) ∧
  (∀ p ∈ s.seller_prices, 0 ≤ p)

/-! ### Helper lemmas -/

lemma strContains_of_infix {s pat : String} (h : pat.toList <:+: s.toList) :
    strContains s pat = true :=
  decide_eq_true h

lemma foldl_min_le_init (xs : List ℚ) (x : ℚ) : xs.foldl min x ≤ x := by
  induction xs generalizing x with
  | nil => exact le_refl x
  | cons y ys ih => exact le_trans (ih (min x y)) (min_le_left x y)

lemma init_le_foldl_max (xs : List ℚ) (x : ℚ) : x ≤ xs.foldl max x := by
  induction xs generalizing x with
  | nil => exact le_refl x
  | cons y ys ih => exact le_trans (le_max_left x y) (ih (max x y))

lemma foldl_min_mem (xs : List ℚ) (x : ℚ) : xs.foldl min x ∈ x :: xs := by
  induction xs generalizing x with
  | nil => simp
  | cons y ys ih =>
    have h := ih (min x y)
    rw [List.foldl_cons]
    rcases List.mem_cons.mp h with h1 | h1
    · rcases min_choice x y with hc | hc
      · rw [h1, hc]; simp
      · rw [h1, hc]; simp
    · exact List.mem_cons_of_mem x (List.mem_cons_of_mem y h1)

lemma foldl_max_mem (xs : List ℚ) (x : ℚ) : xs.foldl max x ∈ x :: xs := by
  induction xs generalizing x with
  | nil => simp
  | cons y ys ih =>
    have h := ih (max x y)
    rw [List.foldl_cons]
    rcases List.mem_cons.mp h with h1 | h1
    · rcases max_choice x y with hc | hc
      · rw [h1, hc]; simp
      · rw [h1, hc]; simp
    · exact List.mem_cons_of_mem x (List.mem_cons_of_mem y h1)

lemma listMin_mem {l : List ℚ} {a : ℚ} (h : listMin l = some a) : a ∈ l := by
  cases l with
  | nil => simp [listMin] at h
  | cons x xs =>
    rw [listMin, Option.some.injEq] at h
    rw [← h]
    exact foldl_min_mem xs x

lemma listMax_mem {l : List ℚ} {a : ℚ} (h : listMax l = some a) : a ∈ l := by
  cases l with
  | nil => simp [listMax] at h
  | cons x xs =>
    rw [listMax, Option.some.injEq] at h
    rw [← h]
    exact foldl_max_mem xs x

lemma listMin_le_listMax {l : List ℚ} {a b : ℚ}
    (ha : listMin l = some a) (hb : listMax l = some b) : a ≤ b := by
  cases l with
  | nil => simp [listMin] at ha
  | cons x xs =>
    rw [listMin, Option.some.injEq] at ha
    rw [listMax, Option.some.injEq] at hb
    rw [← ha, ← hb]
    exact le_trans (foldl_min_le_init xs x) (init_le_foldl_max xs x)

lemma pyFloat?_nonneg {s : Chars} {v : ℚ} (h : pyFloat? s = some v) : 0 ≤ v := by
  unfold pyFloat? at h
  split at h
  · simp at h
  split at h
  · simp at h
  split at h
  · simp at h
  split at h
  · simp at h
  rw [Option.some.injEq] at h
  rw [← h]
  positivity

lemma parsePriceTok_nonneg {cs : Chars} {v : ℚ} (h : parsePriceTok cs = some v) : 0 ≤ v :=
  pyFloat?_nonneg h

lemma extract_price_nonneg {anchor mid post text : String} {v : ℚ}
    (h : extract_price anchor mid post text = .ok (some v)) : 0 ≤ v := by
  unfold extract_price at h
  split at h
  · simp at h
  split at h
  · rename_i cap w hw
    rw [Except.ok.injEq, Option.some.injEq] at h
    rw [← h]
    exact parsePriceTok_nonneg hw
  · simp at h

lemma keepPrice_range {t : Chars} {p : ℚ} (h : keepPrice t = some p) :
    10 ≤ p ∧ p ≤ 10000 := by
  unfold keepPrice at h
  split at h
  · simp at h
  split at h
  · rw [Option.some.injEq] at h
    rw [← h]
    assumption
  · simp at h

lemma extract_seller_prices_eq (text : String) :
    extract_seller_prices text =
      (List.insertionSort (· ≤ ·)
        ((findAllSellerTokens text.toList).filterMap keepPrice).dedup).take 50 := by
  unfold extract_seller_prices keepPrice
  rfl

lemma mem_extract_seller_prices_range {text : String} {p : ℚ}
    (h : p ∈ extract_seller_prices text) : 10 ≤ p ∧ p ≤ 10000 := by
  rw [extract_seller_prices_eq] at h
  have h1 := List.mem_of_mem_take h
  have h2 := ((List.perm_insertionSort (· ≤ ·) _).mem_iff).mp h1
  have h3 := List.mem_dedup.mp h2
  obtain ⟨tok, _, hk⟩ := List.mem_filterMap.mp h3
  exact keepPrice_range hk

lemma mem_extract_seller_prices_nonneg {text : String} {p : ℚ}
    (h : p ∈ extract_seller_prices text) : 0 ≤ p :=
  le_trans (by norm_num) (mem_extract_seller_prices_range h).1

lemma pyFloat?_eq {s : Chars}
    (h1 : s.isEmpty = false)
    (h2 : (s.all fun c => c.isDigit || c == '.') = true)
    (h3 : (s.filter fun c => c == '.').length < 2)
    (h4 : s.any Char.isDigit = true) :
    pyFloat? s = some ((natOfDigits (s.takeWhile fun c => c ≠ '.') : ℚ) +
      (natOfDigits ((s.dropWhile fun c => c ≠ '.').drop 1) : ℚ) /
        (10 : ℚ) ^ ((s.dropWhile fun c => c ≠ '.').drop 1).length) := by
  unfold pyFloat?
  rw [if_neg (by simp [h1]), if_neg (by simp [h2]), if_neg (by omega),
    if_neg (by simp [h4])]

lemma parse_price_127_50 : parse_price_str "127,50" = some (255 / 2 : ℚ) := by
  show pyFloat? (normComma "127,50".toList) = _
  rw [show normComma "127,50".toList = "127.50".toList from by decide]
  rw [pyFloat?_eq (by decide) (by decide) (by decide) (by decide)]
  rw [show natOfDigits ("127.50".toList.takeWhile fun c => c ≠ '.') = 127 from by decide]
  rw [show (("127.50".toList.dropWhile fun c => c ≠ '.').drop 1) = ['5', '0'] from by decide]
  rw [show natOfDigits ['5', '0'] = 50 from by decide]
  norm_num

lemma parse_price_1234_56 : parse_price_str "1,234.56" = some (30864 / 25 : ℚ) := by
  show pyFloat? (normComma "1,234.56".toList) = _
  rw [show normComma "1,234.56".toList = "1234.56".toList from by decide]
  rw [pyFloat?_eq (by decide) (by decide) (by decide) (by decide)]
  rw [show natOfDigits ("1234.56".toList.takeWhile fun c => c ≠ '.') = 1234 from by decide]
  rw [show (("1234.56".toList.dropWhile fun c => c ≠ '.').drop 1) = ['5', '6'] from by decide]
  rw [show natOfDigits ['5', '6'] = 56 from by decide]
  norm_num

lemma parse_tok_10000 : parsePriceTok ['1', '0', '0', '0', '0'] = some (10000 : ℚ) := by
  show pyFloat? (normComma ['1', '0', '0', '0', '0']) = _
  rw [show normComma ['1', '0', '0', '0', '0'] = ['1', '0', '0', '0', '0'] from by decide]
  rw [pyFloat?_eq (by decide) (by decide) (by decide) (by decide)]
  rw [show natOfDigits (['1', '0', '0', '0', '0'].takeWhile fun c => c ≠ '.') = 10000 from by decide]
  rw [show ((['1', '0', '0', '0', '0'].dropWhile fun c => c ≠ '.').drop 1) = ([] : Chars) from by decide]
  norm_num [natOfDigits]

lemma parse_tok_9999_99 :
    parsePriceTok ['9', '9', '9', '9', '.', '9', '9'] = some (999999 / 100 : ℚ) := by
  show pyFloat? (normComma ['9', '9', '9', '9', '.', '9', '9']) = _
  rw [show normComma ['9', '9', '9', '9', '.', '9', '9'] =
    ['9', '9', '9', '9', '.', '9', '9'] from by decide]
  rw [pyFloat?_eq (by decide) (by decide) (by decide) (by decide)]
  rw [show natOfDigits (['9', '9', '9', '9', '.', '9', '9'].takeWhile fun c => c ≠ '.') = 9999
    from by decide]
  rw [show ((['9', '9', '9', '9', '.', '9', '9'].dropWhile fun c => c ≠ '.').drop 1) = ['9', '9']
    from by decide]
  rw [show natOfDigits ['9', '9'] = 99 from by decide]
  norm_num

lemma parse_tok_9_99 : parsePriceTok ['9', '.', '9', '9'] = some (999 / 100 : ℚ) := by
  show pyFloat? (normComma ['9', '.', '9', '9']) = _
  rw [show normComma ['9', '.', '9', '9'] = ['9', '.', '9', '9'] from by decide]
  rw [pyFloat?_eq (by decide) (by decide) (by decide) (by decide)]
  rw [show natOfDigits (['9', '.', '9', '9'].takeWhile fun c => c ≠ '.') = 9 from by decide]
  rw [show ((['9', '.', '9', '9'].dropWhile fun c => c ≠ '.').drop 1) = ['9', '9'] from by decide]
  rw [show natOfDigits ['9', '9'] = 99 from by decide]
  norm_num

lemma keep_10000 : keepPrice ['1', '0', '0', '0', '0'] = some (10000 : ℚ) := by
  simp only [keepPrice, parse_tok_10000]
  norm_num

lemma keep_9999_99 : keepPrice ['9', '9', '9', '9', '.', '9', '9'] = some (999999 / 100 : ℚ) := by
  simp only [keepPrice, parse_tok_9999_99]
  norm_num

lemma keep_9_99 : keepPrice ['9', '.', '9', '9'] = none := by
  simp only [keepPrice, parse_tok_9_99]
  norm_num

lemma seller_eval_10000 : extract_seller_prices "10000 €" = [(10000 : ℚ)] := by
  rw [extract_seller_prices_eq]
  rw [show findAllSellerTokens "10000 €".toList = [['1', '0', '0', '0', '0']] from by decide]
  simp [keep_10000]

lemma seller_eval_9999_99 : extract_seller_prices "9999.99 €" = [(999999 / 100 : ℚ)] := by
  rw [extract_seller_prices_eq]
  rw [show findAllSellerTokens "9999.99 €".toList = [['9', '9', '9', '9', '.', '9', '9']]
    from by decide]
  simp [keep_9999_99]

lemma seller_eval_9_99 : extract_seller_prices "9.99 €" = [] := by
  rw [extract_seller_prices_eq]
  rw [show findAllSellerTokens "9.99 €".toList = [['9', '.', '9', '9']] from by decide]
  simp [keep_9_99]

lemma extract_from_price_nonneg {c : String} {v : ℚ}
    (h : extract_from_price c = .ok (some v)) : 0 ≤ v :=
  extract_price_nonneg h

lemma extract_price_trend_nonneg {c : String} {v : ℚ}
    (h : extract_price_trend c = .ok (some v)) : 0 ≤ v :=
  extract_price_nonneg h

lemma extract_avg_30_nonneg {c : String} {v : ℚ}
    (h : extract_avg_30 c = .ok (some v)) : 0 ≤ v :=
  extract_price_nonneg h

lemma extract_avg_7_nonneg {c : String} {v : ℚ}
    (h : extract_avg_7 c = .ok (some v)) : 0 ≤ v :=
  extract_price_nonneg h

lemma extract_avg_1_nonneg {c : String} {v : ℚ}
    (h : extract_avg_1 c = .ok (some v)) : 0 ≤ v :=
  extract_price_nonneg h

lemma extract_all_ok_inv {c : String} {snap : Snapshot}
    (h : extract_all c = .ok snap) : snapInv snap := by
  unfold extract_all at h
  split at h
  · simp at h
  split at h
  · simp at h
  split at h
  · simp at h
  split at h
  · simp at h
  split at h
  · simp at h
  rename_i x1 fp hfp x2 pt hpt x3 a30 h30 x4 a7 h7 x5 a1 h1
  rw [Except.ok.injEq] at h
  subst h
  refine ⟨rfl, ?_, ?_, ?_, ?_, ?_, ?_, ?_, ?_, ?_, ?_⟩
  · intro hne
    rcases hl : extract_seller_prices c with _ | ⟨x, xs⟩
    · exact absurd hl hne
    · exact ⟨xs.foldl min x, xs.foldl max x, by simp [hl, listMin], by simp [hl, listMax],
        le_trans (foldl_min_le_init xs x) (init_le_foldl_max xs x)⟩
  · intro h0
    have h0' : (extract_seller_prices c).length = 0 := h0
    have hl : extract_seller_prices c = [] := List.length_eq_zero.mp h0'
    constructor
    · show listMin (extract_seller_prices c) = none
      rw [hl]; rfl
    · show listMax (extract_seller_prices c) = none
      rw [hl]; rfl
  · intro v hv
    have hv2 : fp = some v := hv
    rw [hv2] at hfp
    exact extract_from_price_nonneg hfp
  · intro v hv
    have hv2 : pt = some v := hv
    rw [hv2] at hpt
    exact extract_price_trend_nonneg hpt
  · intro v hv
    have hv2 : a30 = some v := hv
    rw [hv2] at h30
    exact extract_avg_30_nonneg h30
  · intro v hv
    have hv2 : a7 = some v := hv
    rw [hv2] at h7
    exact extract_avg_7_nonneg h7
  · intro v hv
    have hv2 : a1 = some v := hv
    rw [hv2] at h1
    exact extract_avg_1_nonneg h1
  · intro v hv
    have hv2 : listMin (extract_seller_prices c) = some v := hv
    exact mem_extract_seller_prices_nonneg (listMin_mem hv2)
  · intro v hv
    have hv2 : listMax (extract_seller_prices c) = some v := hv
    exact mem_extract_seller_prices_nonneg (listMax_mem hv2)
  · intro p hp
    exact mem_extract_seller_prices_nonneg hp

lemma fallback_ok_inv {st : ℕ} {c : String} {snap : Snapshot}
    (h : fallback_http_scrape st c = .success snap) : snapInv snap := by
  unfold fallback_http_scrape at h
  split at h
  · simp at h
  split at h
  · simp at h
  split at h
  · simp at h
  rename_i x1 fp hfp
  split at h
  · rw [ScrapeResult.success.injEq] at h
    subst h
    refine ⟨rfl, ?_, fun _ => ⟨rfl, rfl⟩, ?_, ?_, ?_, ?_, ?_, ?_, ?_, ?_⟩
    · intro hne
      exact absurd rfl hne
    · intro v hv
      have hv2 : fp = some v := hv
      rw [hv2] at hfp
      exact extract_from_price_nonneg hfp
    all_goals intro v hv
    all_goals exact absurd hv (by simp)
  · simp at h

lemma scrape_success_extract {env : ScrapeEnv} {url : String} {snap : Snapshot}
    (h : (scrape_item_price env url).1 = .success snap) :
    extract_all env.content = .ok snap := by
  unfold scrape_item_price at h
  split at h
  · simp at h
  split at h
  · simp at h
  split at h
  · simp at h
  split at h
  · simp at h
  split at h
  · simp at h
  split at h
  · simp at h
  split at h
  · rename_i x snap2 hex
    split at h
    · simp at h
    · rw [show (ScrapeResult.success snap2, 2).1 = ScrapeResult.success snap2 from rfl,
        ScrapeResult.success.injEq] at h
      rw [hex, h]
  · simp at h

lemma scrape_success_reached {env : ScrapeEnv} {url : String} {snap : Snapshot}
    (h : (scrape_item_price env url).1 = .success snap) :
    env.launchExc = none ∧ reachedOk env = true := by
  unfold scrape_item_price at h
  split at h
  · simp at h
  split at h
  · simp at h
  split at h
  · simp at h
  split at h
  · simp at h
  split at h
  · simp at h
  split at h
  · simp at h
  split at h
  · split at h
    · simp at h
    · refine ⟨by assumption, ?_⟩
      simp_all [reachedOk]
  · simp at h

lemma scrape_close_count_eq (env : ScrapeEnv) (url : String) :
    (scrape_item_price env url).2 =
      if env.launchExc.isSome then 0 else if reachedOk env then 2 else 1 := by
  obtain ⟨le, he, ge, tr, cf, cc, rr, pe, ct, ce⟩ := env
  cases le <;> cases he <;> cases ge <;> cases tr <;> cases pe <;> cases ce <;>
    simp only [scrape_item_price, reachedOk] <;> (repeat' split) <;> simp_all

lemma scrape_error_of_closeExc {env : ScrapeEnv} {url : String} {e : String}
    (hr : reachedOk env = true) (hc : env.closeExc = some e) :
    (scrape_item_price env url).1 = .error e := by
  obtain ⟨le, he, ge, tr, cf, cc, rr, pe, ct, ce⟩ := env
  cases le <;> cases he <;> cases ge <;> cases tr <;> cases pe <;> cases ce <;>
    simp_all [scrape_item_price, reachedOk]
  all_goals split <;> simp_all

lemma reachedOk_launch_none {env : ScrapeEnv} (hr : reachedOk env = true) :
    env.launchExc = none := by
  simp only [reachedOk, Bool.and_eq_true, Option.isNone_iff_eq_none] at hr
  exact hr.1.1.1.1.1

/-! ### Claim theorems -/

/-- C1: for every scrape attempt, the direct-fetch fallback is attempted if and
only if the browser-path result is a failure whose error detail mentions an
HTTP 403 condition ("403" occurs in the error string); and when the fallback
then also fails, the final failure record's error detail contains both the
browser-path and the fallback-path error detail. -/
theorem c1_fallback_iff_403_and_combined_error :
    ∀ br fb : ScrapeResult,
      ((scrape_with_fallback br fb).2 = true ↔
        ∃ msg, br = .error msg ∧ strContains msg "403" = true) ∧
      (∀ msg fmsg, br = .error msg → strContains msg "403" = true →
        fb = .error fmsg →
        (scrape_with_fallback br fb).1 =
          .error ("Browser: " ++ msg ++ ", Fallback: " ++ fmsg) ∧
        strContains ("Browser: " ++ msg ++ ", Fallback: " ++ fmsg) msg = true ∧
        strContains ("Browser: " ++ msg ++ ", Fallback: " ++ fmsg) fmsg = true) := by
  intro br fb
  constructor
  · cases br with
    | success s => simp [scrape_with_fallback]
    | error msg =>
      cases hc : strContains msg "403" with
      | true => cases fb <;> simp [scrape_with_fallback, hc]
      | false => simp [scrape_with_fallback, hc]
  · intro msg fmsg hbr h403 hfb
    subst hbr
    subst hfb
    refine ⟨by simp [scrape_with_fallback, h403], ?_, ?_⟩
    · apply strContains_of_infix
      refine ⟨"Browser: ".toList, (", Fallback: " ++ fmsg).toList, ?_⟩
      simp [String.toList, String.data_append]
    · apply strContains_of_infix
      refine ⟨("Browser: " ++ msg ++ ", Fallback: ").toList, [], ?_⟩
      simp [String.toList, String.data_append]

/-- C1 witness: a browser-path 403 with a failing fallback produces the
combined error message containing both details. -/
theorem c1_witness :
    (scrape_with_fallback (ScrapeResult.error "HTTP 403")
        (ScrapeResult.error "HTTP 503")).1 =
      ScrapeResult.error ("Browser: " ++ "HTTP 403" ++ ", Fallback: " ++ "HTTP 503") ∧
    strContains ("Browser: " ++ "HTTP 403" ++ ", Fallback: " ++ "HTTP 503") "HTTP 403" = true ∧
    strContains ("Browser: " ++ "HTTP 403" ++ ", Fallback: " ++ "HTTP 503") "HTTP 503" = true :=
  (c1_fallback_iff_403_and_combined_error (.error "HTTP 403") (.error "HTTP 503")).2
    "HTTP 403" "HTTP 503" rfl (by decide) rfl

/-- C2 counterexample: the claim says a token parsing to exactly 10000 is
excluded from the seller price list, but the code's range test is the closed
`10 <= price <= 10000`, so the markup "10000 €" yields the seller list
[10000]. -/
theorem c2_counterexample_10000_included :
    extract_seller_prices "10000 €" = [(10000 : ℚ)] :=
  seller_eval_10000

/-- C2 amended: the seller-price scan keeps exactly the closed range
[10, 10000]: every retained value satisfies 10 ≤ p ≤ 10000, a token parsing
to 10000 is included, 9999.99 is included, and 9.99 is excluded. -/
theorem c2_seller_price_range :
    (∀ (t : String) (p : ℚ), p ∈ extract_seller_prices t → 10 ≤ p ∧ p ≤ 10000) ∧
    extract_seller_prices "10000 €" = [(10000 : ℚ)] ∧
    extract_seller_prices "9999.99 €" = [(999999 / 100 : ℚ)] ∧
    extract_seller_prices "9.99 €" = [] :=
  ⟨fun _ _ h => mem_extract_seller_prices_range h,
    seller_eval_10000, seller_eval_9999_99, seller_eval_9_99⟩

/-- C2 witness: the range bound applied to the concrete markup "10000 €". -/
theorem c2_seller_price_range_witness :
    (10 : ℚ) ≤ 10000 ∧ (10000 : ℚ) ≤ 10000 :=
  c2_seller_price_range.1 "10000 €" 10000 (by rw [seller_eval_10000]; simp)

/-- C3: the numeric parser treats a comma with no period as the decimal
separator (all commas become periods) and a comma together with a period as
a thousands separator that is stripped; "127,50" parses to 127.50 and
"1,234.56" parses to 1234.56. -/
theorem c3_comma_decimal_handling :
    (∀ s : String, ',' ∈ s.toList → '.' ∉ s.toList →
      parse_price_str s = pyFloat? (s.toList.map fun c => if c = ',' then '.' else c)) ∧
    (∀ s : String, ',' ∈ s.toList → '.' ∈ s.toList →
      parse_price_str s = pyFloat? (s.toList.filter fun c => c ≠ ',')) ∧
    parse_price_str "127,50" = some (255 / 2 : ℚ) ∧
    parse_price_str "1,234.56" = some (30864 / 25 : ℚ) := by
  refine ⟨?_, ?_, parse_price_127_50, parse_price_1234_56⟩
  · intro s h1 h2
    have h1d : ',' ∈ s.data := h1
    have h2d : '.' ∉ s.data := h2
    simp [parse_price_str, parsePriceTok, normComma, h1d, h2d]
  · intro s h1 h2
    have h1d : ',' ∈ s.data := h1
    have h2d : '.' ∈ s.data := h2
    simp [parse_price_str, parsePriceTok, normComma, h1d, h2d]

/-- C3 witness: the two normalisation rules applied at the concrete inputs. -/
theorem c3_comma_decimal_handling_witness :
    parse_price_str "127,50" =
      pyFloat? ("127,50".toList.map fun c => if c = ',' then '.' else c) ∧
    parse_price_str "1,234.56" =
      pyFloat? ("1,234.56".toList.filter fun c => c ≠ ',') :=
  ⟨c3_comma_decimal_handling.1 "127,50" (by decide) (by decide),
   c3_comma_decimal_handling.2.1 "1,234.56" (by decide) (by decide)⟩

/-- C7: for every markup input the seller price list is sorted strictly
ascending (hence also weakly sorted and duplicate-free) and has length at
most 50. -/
theorem c7_seller_list_sorted_nodup_bounded (t : String) :
    (extract_seller_prices t).Sorted (· < ·) ∧
    (extract_seller_prices t).Nodup ∧
    (extract_seller_prices t).length ≤ 50 := by
  rw [extract_seller_prices_eq]
  have hs : (List.insertionSort (· ≤ ·)
      ((findAllSellerTokens t.toList).filterMap keepPrice).dedup).Sorted (· ≤ ·) :=
    List.sorted_insertionSort _ _
  have hn : (List.insertionSort (· ≤ ·)
      ((findAllSellerTokens t.toList).filterMap keepPrice).dedup).Nodup :=
    ((List.perm_insertionSort _ _).nodup_iff).mpr (List.nodup_dedup _)
  have hs' := hs.sublist (List.take_sublist 50 _)
  have hn' := hn.sublist (List.take_sublist 50 _)
  exact ⟨List.Pairwise.imp (fun hab => lt_of_le_of_ne hab.1 hab.2) (hs'.and hn'),
    hn', List.length_take_le _ _⟩

/-- C9: a failure while tracking one holding does not abort the rest: the loop
records one outcome per holding, each holding's outcome depends only on its
own scrape/save calls, and the outcomes appear in holdings-list order. -/
theorem c9_per_item_isolation :
    ∀ (scrapeF : Holding → Except String ScrapeResult)
      (saveF : Holding → ScrapeResult → Except String Unit) (items : List Holding),
      (trackAllItems scrapeF saveF items).length = items.length ∧
      (∀ i : ℕ, (trackAllItems scrapeF saveF items)[i]? =
        (items[i]?).map (trackItem scrapeF saveF)) ∧
      (∀ (pre : List Holding) (h : Holding) (post : List Holding),
        trackAllItems scrapeF saveF (pre ++ h :: post) =
          trackAllItems scrapeF saveF pre ++
            trackItem scrapeF saveF h :: trackAllItems scrapeF saveF post) := by
  intro f g items
  refine ⟨by simp [trackAllItems], fun i => List.getElem?_map _ _ _, ?_⟩
  intro pre h post
  simp [trackAllItems]

/-- C10: every target URL not containing the Magic-category substring
"/Magic/" is routed through the Pokemon category page; Pokemon is the
unconditional default of the two-way substring test. -/
theorem c10_pokemon_default :
    (∀ url : String, strContains url "/Magic/" = false →
      gameType url = "Pokemon" ∧
      category_url url = "https://www.cardmarket.com/en/Pokemon") ∧
    (∀ url : String, gameType url = "Magic" ∨ gameType url = "Pokemon") := by
  constructor
  · intro url h
    constructor
    · simp [gameType, h]
    · show base_url ++ "/en/" ++ gameType url = _
      simp only [gameType, h]
      decide
  · intro url
    unfold gameType
    split
    · exact Or.inl rfl
    · exact Or.inr rfl

/-- C10 witness: a URL of neither known category is routed through Pokemon. -/
theorem c10_pokemon_default_witness :
    gameType "https://www.cardmarket.com/en/YuGiOh/Products/Singles/Card" = "Pokemon" ∧
    category_url "https://www.cardmarket.com/en/YuGiOh/Products/Singles/Card" =
      "https://www.cardmarket.com/en/Pokemon" :=
  c10_pokemon_default.1 "https://www.cardmarket.com/en/YuGiOh/Products/Singles/Card"
    (by decide)

/-- C4 (code evaluated at the failing input): when the `From` pattern matches
but the captured string "1,2,3" is not a valid decimal, the `ValueError`
escapes `_extract_price` and the whole browser-path attempt becomes a
failure, instead of the field being absent as claimed; a missing pattern
match, by contrast, does yield an absent field. -/
theorem c4_parse_error_aborts_attempt :
    extract_from_price "From</dt><dd>1,2,3 €</dd>" =
      .error "could not convert string to float: \x271.2.3\x27" ∧
    (scrape_item_price
        { envSuccEmpty with content := "From</dt><dd>1,2,3 €</dd>" } "u").1 =
      .error "could not convert string to float: \x271.2.3\x27" ∧
    extract_from_price "<dd>nothing here</dd>" = .ok none :=
  ⟨rfl, by decide, rfl⟩

/-- C5 counterexample: on the successful-extraction path the browser close is
invoked twice — the explicit close (scraper.py line 471) and the guarded
close in `finally` (line 493) — so the session is not closed exactly once
on every exit path. -/
theorem c5_counterexample_double_close :
    (scrape_item_price envSuccEmpty "u").1 = ScrapeResult.success snapEmpty ∧
    (scrape_item_price envSuccEmpty "u").2 = 2 ∧
    (scrape_item_price envSuccEmpty "u").2 ≠ 1 :=
  ⟨by decide, by decide, by decide⟩

/-- C5 amended: once the session is launched, close is invoked at least once
and at most twice on every exit path; it is invoked exactly twice precisely
on the paths that reach a successful extraction — the success path (explicit
close at line 471 plus the guarded close in `finally`), and the path where
that unguarded explicit close itself raises, which ends as a status-error
result after both invocations — and exactly once on every other failure or
exception path; when the launch itself raises, no session exists and close
is never invoked on one. -/
theorem c5_close_invocation_counts :
    ∀ (env : ScrapeEnv) (url : String),
      (env.launchExc = none →
        1 ≤ (scrape_item_price env url).2 ∧ (scrape_item_price env url).2 ≤ 2) ∧
      (∀ snap, (scrape_item_price env url).1 = .success snap →
        (scrape_item_price env url).2 = 2) ∧
      ((scrape_item_price env url).2 = 2 ↔
        env.launchExc = none ∧ reachedOk env = true) ∧
      (env.launchExc = none → reachedOk env = false →
        (scrape_item_price env url).2 = 1) ∧
      (∀ e, reachedOk env = true → env.closeExc = some e →
        (scrape_item_price env url).1 = .error e ∧
        (scrape_item_price env url).2 = 2) ∧
      (∀ e, env.launchExc = some e → (scrape_item_price env url).2 = 0) := by
  intro env url
  have hc := scrape_close_count_eq env url
  refine ⟨?_, ?_, ?_, ?_, ?_, ?_⟩
  · intro hl
    rw [hc]
    cases hr : reachedOk env <;> simp [hl, hr]
  · intro snap hs
    obtain ⟨hl, hr⟩ := scrape_success_reached hs
    rw [hc]
    simp [hl, hr]
  · rw [hc]
    cases hl : env.launchExc <;> cases hr : reachedOk env <;> simp [hl, hr]
  · intro hl hr
    rw [hc]
    simp [hl, hr]
  · intro e hr hce
    exact ⟨scrape_error_of_closeExc hr hce,
      by rw [hc]; simp [reachedOk_launch_none hr, hr]⟩
  · intro e he
    rw [hc]
    simp [he]

/-- C5 witness: the close-count bounds at a concrete launched environment, and
the path where the explicit close raises — an error result after two close
invocations. -/
theorem c5_close_invocation_counts_witness :
    (1 ≤ (scrape_item_price envSuccEmpty "u").2 ∧
      (scrape_item_price envSuccEmpty "u").2 ≤ 2) ∧
    ((scrape_item_price envCloseRaise "u").1 = ScrapeResult.error "close failed" ∧
      (scrape_item_price envCloseRaise "u").2 = 2) :=
  ⟨(c5_close_invocation_counts envSuccEmpty "u").1 rfl,
    (c5_close_invocation_counts envCloseRaise "u").2.2.2.2.1 "close failed"
      (by decide) rfl⟩

/-- C6: every successfully constructed snapshot — from the full-render path or
from the direct-fetch fallback — satisfies the invariants: seller_count
equals the seller list length, min ≤ max on a non-empty seller list, min
and max absent when the count is zero, and every monetary field
non-negative or absent (the available-item count is non-negative by its
type `ℕ`). -/
theorem c6_snapshot_invariants :
    ∀ (env : ScrapeEnv) (url : String) (st : ℕ) (c : String) (snap : Snapshot),
      ((scrape_item_price env url).1 = .success snap ∨
        fallback_http_scrape st c = .success snap) →
      snapInv snap := by
  intro env url st c snap h
  rcases h with h | h
  · exact extract_all_ok_inv (scrape_success_extract h)
  · exact fallback_ok_inv h

/-- C6 witness: the invariants hold for the snapshot of a concrete successful
fallback scrape. -/
theorem c6_snapshot_invariants_witness : snapInv fbSnapAvail5 :=
  c6_snapshot_invariants envSuccEmpty "u" 200 "Available items</dt><dd>5</dd>"
    fbSnapAvail5 (Or.inr (by decide))

/-- C8 counterexample: on this 200-response body the available-item-count field
parses (to 5), yet the fallback result is the failure "Fallback failed: …"
rather than Success, because the `From` token "1,2,3" raises inside
`_extract_price`; so "Success iff at least one of the two fields parses"
fails as stated. -/
theorem c8_counterexample_fallback_failed :
    extract_available_items fallbackBugMarkup = some 5 ∧
    fallback_http_scrape 200 fallbackBugMarkup =
      .error "Fallback failed: could not convert string to float: \x271.2.3\x27" :=
  ⟨by decide, by decide⟩

/-- C8 amended: a fallback response of 403 yields error "HTTP 403" (and the
coordinator attempts no further fallback); any other non-200 yields
"HTTP <code>"; on a 200 response, provided the list-price extraction does
not raise (a raise yields "Fallback failed: <detail>"), the result is
Success — carrying only the two reduced fields, all others absent, and the
direct-fetch method tag — exactly when at least one of the two fields
parses, and the failure "No data extracted" when neither does. -/
theorem c8_fallback_mapping :
    ∀ (st : ℕ) (content : String),
      (st = 403 → fallback_http_scrape st content = .error "HTTP 403") ∧
      (st ≠ 403 → st ≠ 200 →
        fallback_http_scrape st content = .error ("HTTP " ++ toString st)) ∧
      (∀ e, extract_from_price content = .error e →
        fallback_http_scrape 200 content = .error ("Fallback failed: " ++ e)) ∧
      (∀ fp, extract_from_price content = .ok fp →
        (((extract_available_items content).isSome || fp.isSome) = true →
          fallback_http_scrape 200 content = .success
            { available_items := extract_available_items content
              from_price := fp
              price_trend := none
              avg_30_days := none
              avg_7_days := none
              avg_1_day := none
              seller_prices := []
              min_seller_price := none
              max_seller_price := none
              seller_count := 0
              method := some "http_fallback" }) ∧
        (((extract_available_items content).isSome || fp.isSome) = false →
          fallback_http_scrape 200 content = .error "No data extracted")) := by
  intro st content
  refine ⟨?_, ?_, ?_, ?_⟩
  · intro h
    subst h
    simp [fallback_http_scrape]
  · intro h1 h2
    simp [fallback_http_scrape, h1, h2]
  · intro e he
    simp [fallback_http_scrape, he]
  · intro fp hfp
    constructor
    · intro hs
      simp [fallback_http_scrape, hfp, hs]
    · intro hs
      simp [fallback_http_scrape, hfp, hs]

/-- C8 witness: the 403 clause at a concrete fallback response. -/
theorem c8_fallback_mapping_witness :
    fallback_http_scrape 403 "" = ScrapeResult.error "HTTP 403" :=
  (c8_fallback_mapping 403 "").1 rfl

end PortfolioTracker
